import Mathlib

/-!
Shallow embedding of the Lec2Notes RAG pipeline (src/rag_pipeline.py,
src/app.py) for checking the specification's claims.

Python exceptions are modelled by an explicit error type; the MongoDB
collections (documents, sessions, messages) are modelled as Lean lists in
insertion order; floating-point similarity scores are modelled as rationals
(only order comparisons matter to the code); the external language-model
and embedding calls are abstracted as function parameters.
-/

/-- Errors the Python code can raise, plus the spec's typed `IndexNotFound`
(`indexNotFound` is never produced by the code; it is declared so that the
spec's claim about it can be stated and compared with what the code does). -/
inductive PyError where
  | typeError (msg : String)
  | runtimeError (msg : String)
  | indexError (msg : String)
  | indexNotFound
deriving DecidableEq

/-- A record of the `messages` collection (rag_pipeline.py, insert_many
calls): session id, role ("human" / "assistant") and text content.
Timestamps are represented by list position (insertion order). -/
structure Msg where
  session_id : String
  role : String
  content : String
deriving DecidableEq

/-- One message of a chat prompt, as langchain sees it: `type` is the
message class ("system" for SystemMessage, "human" for HumanMessage) and
`content` its text. -/
structure ChatMsg where
  type : String
  content : String
deriving DecidableEq

/-- `messages_col.find({"session_id": sid}).sort("timestamp", 1)`
(rag_pipeline.py lines 101-103): all messages of the session in
chronological (insertion) order. -/
def historyFor (db : List Msg) (sid : String) : List Msg :=
  db.filter (fun m => m.session_id == sid)

/-- The history-loading loop of chat_with_transcript (lines 105-110): a
stored message with role "human" becomes a HumanMessage, every other role
(i.e. "assistant") becomes a SystemMessage. -/
def toChatHistory (msgs : List Msg) : List ChatMsg :=
  msgs.map (fun m =>
    if m.role == "human" then ⟨"human", m.content⟩ else ⟨"system", m.content⟩)

/-- `SIMILARITY_THRESHOLD = 1.0` (rag_pipeline.py line 120). -/
def SIMILARITY_THRESHOLD : ℚ := 1

/-- `is_out_of_context = top_score > SIMILARITY_THRESHOLD`
(rag_pipeline.py line 122). -/
def isOutOfContext (top_score : ℚ) : Bool :=
  decide (top_score > SIMILARITY_THRESHOLD)

/-- Python truthiness of an optional string (`if notes_context:`,
`not custom_format`): `None` and the empty string are falsy. -/
def pyTruthy : Option String → Bool
  | none => false
  | some s => !(s == "")

/-- The disclaimer prefix of the out-of-context branch
(rag_pipeline.py lines 142-145). -/
def OOC_WARNING : String :=
  "\n⚠️ Note: This question is outside the scope of the uploaded document. The answer below is generated using general knowledge.\n\n"

/-- The messages sent to the model in the out-of-context branch
(rag_pipeline.py lines 130-138): an optional notes-context system message,
then the loaded history, then the user query. -/
def generalMessages (notes_context : Option String)
    (chat_history : List ChatMsg) (user_query : String) : List ChatMsg :=
  (if pyTruthy notes_context then
    [⟨"system", "Lecture notes context:\n" ++ notes_context.getD ""⟩]
   else [])
  ++ chat_history ++ [⟨"human", user_query⟩]

/-- The in-context prompt of chat_with_transcript after
`format_messages` (rag_pipeline.py lines 170-182): one grounded-answering
instruction, one context message, the loaded history (as mapped by
`toChatHistory`), then the new user message. -/
def ragPrompt (context : String) (chat_history : List ChatMsg)
    (question : String) : List ChatMsg :=
  [⟨"system", "Answer strictly using the provided context."⟩,
   ⟨"system", "Context:\n" ++ context⟩]
  ++ chat_history ++ [⟨"human", question⟩]

/-- `chat_with_transcript` (rag_pipeline.py lines 90-203).
`llm` abstracts `llm.invoke(...).content` (it may fail); `retrieve`
abstracts `retriever.vectorstore.similarity_search_with_score(q, k=3)`,
returning (chunk text, score) pairs. The result is the returned value (or
the raised error) together with the state of the messages collection: an
empty retrieval makes `docs_with_scores[0]` raise IndexError, and the two
inserts happen only after the model call succeeded. -/
def chat_with_transcript
    (llm : List ChatMsg → Except PyError String)
    (retrieve : String → List (String × ℚ))
    (user_query session_id : String)
    (notes_context : Option String)
    (db : List Msg) : Except PyError String × List Msg :=
  let chat_history := toChatHistory (historyFor db session_id)
  match retrieve user_query with
  | [] => (.error (.indexError "list index out of range"), db)
  | (d0, top_score) :: rest =>
    let context :=
      String.intercalate "\n\n" (((d0, top_score) :: rest).map Prod.fst)
    if isOutOfContext top_score then
      match llm (generalMessages notes_context chat_history user_query) with
      | .error e => (.error e, db)
      | .ok general_response =>
        let final := OOC_WARNING ++ general_response ++ "\n"
        (.ok final,
         db ++ [⟨session_id, "human", user_query⟩,
                ⟨session_id, "assistant", final⟩])
    else
      match llm (ragPrompt context chat_history user_query) with
      | .error e => (.error e, db)
      | .ok response =>
        (.ok response,
         db ++ [⟨session_id, "human", user_query⟩,
                ⟨session_id, "assistant", response⟩])

/-- A record of the `documents` collection (store_document,
rag_pipeline.py lines 47-59); only the fields load_retriever touches. -/
structure DocRecord where
  id : String
  username : String
  faiss_path : String
deriving DecidableEq

/-- A persisted FAISS index, viewed as its list of chunk texts. -/
def FaissIndex := List String

/-- `load_retriever` (rag_pipeline.py lines 63-75). `documents` models the
documents collection (find_one returns the first match), `faissStore`
models the on-disk FAISS directories keyed by path. When find_one returns
None, `doc["faiss_path"]` raises TypeError; when the path has no saved
index, FAISS.load_local raises RuntimeError. On success the retriever is
the loaded index paired with its `k`. -/
def load_retriever (documents : List DocRecord)
    (faissStore : String → Option FaissIndex)
    (username document_id : String) (k : ℕ) :
    Except PyError (FaissIndex × ℕ) :=
  match documents.find? (fun d => d.id == document_id && d.username == username) with
  | none => .error (.typeError "NoneType object is not subscriptable")
  | some doc =>
    match faissStore doc.faiss_path with
    | none => .error (.runtimeError ("could not open index at " ++ doc.faiss_path))
    | some idx => .ok (idx, k)

/-- `generate_notes` (rag_pipeline.py lines 77-88). `search` abstracts
`retriever.invoke(query)` on the loaded index with its `k`; `llmComplete`
abstracts `get_llm(t).invoke(prompt).content`; `str.format` on the single
`\x7bcontext\x7d` placeholder is string substitution. The `chunk_size` and
`chunk_overlap` parameters appear in the source signature and are never
read in the body. -/
def generate_notes (documents : List DocRecord)
    (faissStore : String → Option FaissIndex)
    (search : FaissIndex → ℕ → String → List String)
    (llmComplete : ℚ → String → String)
    (document_id username prompt_template : String)
    (chunk_size chunk_overlap retriever_k : ℕ) (llm_temperature : ℚ) :
    Except PyError String :=
  match load_retriever documents faissStore username document_id retriever_k with
  | .error e => .error e
  | .ok (idx, k) =>
    let docs := search idx k "Generate structured lecture notes."
    let context := String.intercalate "\n\n" docs
    let prompt := String.replace prompt_template "\x7bcontext\x7d" context
    .ok (llmComplete llm_temperature prompt)

/-- The member names of the `NotesFormat` enum (app.py lines 37-54);
`type_17` is the "Custom Template" variant. -/
def notesFormatMembers : List String :=
  ["type_1", "type_2", "type_3", "type_4", "type_5", "type_6", "type_7",
   "type_8", "type_9", "type_10", "type_11", "type_12", "type_13",
   "type_14", "type_15", "type_16", "type_17"]

/-- The value stored in `selected_formats[session_id]` (app.py
lines 178-181): the chosen format member name and the custom prompt. -/
structure FormatSelection where
  notes_format : String
  custom_prompt : Option String
deriving DecidableEq

/-- Python dict assignment `d[k] = v`, for a dict modelled as an
association list read through `dictGet` (first match wins). -/
def dictInsert {α : Type} (d : List (String × α)) (k : String) (v : α) :
    List (String × α) :=
  (k, v) :: d

/-- Python dict lookup `d[k]` / membership `k in d`. -/
def dictGet {α : Type} (d : List (String × α)) (k : String) : Option α :=
  (d.find? (fun p => p.1 == k)).map Prod.snd

/-- The possible returns of the `/formats` endpoint (app.py lines 156-187). -/
inductive FormatsResult where
  | invalidFormat (name : String)
  | customRequired
  | selected (notes_format : String) (custom_format : Option String)
deriving DecidableEq

/-- `select_formats` (app.py lines 156-187): reject an unknown member
name; reject the custom variant with falsy custom text ("Custom format is
required when using Custom Template"); for a non-custom variant discard
the custom text; store the selection for the session and echo it back. -/
def select_formats (selected_formats : List (String × FormatSelection))
    (session_id notes_format : String) (custom_format : Option String) :
    FormatsResult × List (String × FormatSelection) :=
  if notesFormatMembers.contains notes_format then
    if notes_format == "type_17" && !(pyTruthy custom_format) then
      (.customRequired, selected_formats)
    else
      let custom := if notes_format == "type_17" then custom_format else none
      (.selected notes_format custom,
       dictInsert selected_formats session_id ⟨notes_format, custom⟩)
  else
    (.invalidFormat notes_format, selected_formats)

/-- A record of the `sessions` collection (app.py lines 143-149). -/
structure SessionRecord where
  id : String
  username : String
  document_id : String
deriving DecidableEq

/-- What the `/generate-notes` endpoint returns (app.py lines 190-218):
either one of its two error dicts, or the generated notes. -/
inductive EndpointResult where
  | error (msg : String)
  | notes (text : String)
deriving DecidableEq

/-- `generate_notes_endpoint` (app.py lines 190-218): the format-selection
check comes first (`session_id not in selected_formats`), then the session
lookup (`sessions_col.find_one`), then the pipeline call. `runGen`
abstracts `get_prompt_template` plus `generate_notes`. -/
def generate_notes_endpoint
    (selected_formats : List (String × FormatSelection))
    (sessions : List SessionRecord)
    (runGen : FormatSelection → SessionRecord → String)
    (session_id : String) : EndpointResult :=
  match dictGet selected_formats session_id with
  | none => .error "Please select a notes format first using /formats"
  | some data =>
    match sessions.find? (fun s => s.id == session_id) with
    | none => .error "Invalid session"
    | some session => .notes (runGen data session)

/-- Modelled from the spec: the Retriever's
`topK(index, query, k) -> ordered (chunk, score)` operation. Its
implementation is the external FAISS library
(`similarity_search_with_score`), whose code is not part of this
repository; src/ contains only the call sites. Per §4.3: scores are
distances (lower = more similar), results are sorted most-similar first,
`k` is capped to the index's chunk count, and an empty index yields an
empty result rather than an error. `score` abstracts the embedding
distance between a query and a chunk. -/
def topK (score : String → String → ℚ) (index : List String)
    (query : String) (k : ℕ) : List (String × ℚ) :=
  ((index.map (fun c => (c, score query c))).mergeSort
    (fun a b => decide (a.2 ≤ b.2))).take k

/-- Filtering a session's history distributes over appending new messages. -/
theorem historyFor_append (db l : List Msg) (sid : String) :
    historyFor (db ++ l) sid = historyFor db sid ++ historyFor l sid := by
  simp [historyFor, List.filter_append]

/-- A successful chat call appends exactly the user turn and the assistant
turn (in that order) to the messages collection, whichever branch ran. -/
theorem chat_ok_appends
    (llm : List ChatMsg → Except PyError String)
    (retrieve : String → List (String × ℚ))
    (q sid : String) (nc : Option String)
    (db : List Msg) (r : String) (db' : List Msg)
    (h : chat_with_transcript llm retrieve q sid nc db = (.ok r, db')) :
    db' = db ++ [⟨sid, "human", q⟩, ⟨sid, "assistant", r⟩] := by
  unfold chat_with_transcript at h
  split at h
  · simp at h
  · split at h
    · dsimp only at h
      split at h
      · simp at h
      · simp only [Prod.mk.injEq, Except.ok.injEq] at h
        obtain ⟨h1, h2⟩ := h
        subst h1
        exact h2.symm
    · dsimp only at h
      split at h
      · simp at h
      · simp only [Prod.mk.injEq, Except.ok.injEq] at h
        obtain ⟨h1, h2⟩ := h
        subst h1
        exact h2.symm

/-- A chat call that raises leaves the messages collection unchanged. -/
theorem chat_error_state
    (llm : List ChatMsg → Except PyError String)
    (retrieve : String → List (String × ℚ))
    (q sid : String) (nc : Option String)
    (db : List Msg) (e : PyError) (db' : List Msg)
    (h : chat_with_transcript llm retrieve q sid nc db = (.error e, db')) :
    db' = db := by
  unfold chat_with_transcript at h
  split at h
  · simp only [Prod.mk.injEq] at h
    exact h.2.symm
  · split at h
    · dsimp only at h
      split at h
      · simp only [Prod.mk.injEq] at h
        exact h.2.symm
      · simp at h
    · dsimp only at h
      split at h
      · simp only [Prod.mk.injEq] at h
        exact h.2.symm
      · simp at h

/-- C1: for every chat query, with top-1 retrieval score `s`, the query is
classified as out-of-context iff `s > 1.0`, and at the boundary `s = 1.0`
it is classified as in-context: the chat call takes the disclaimer-prefixed
general-knowledge branch exactly when `s > 1`, and otherwise answers with
the grounded response. -/
theorem c1_out_of_context_iff (s : ℚ) (c q sid r : String) (db : List Msg) :
    (isOutOfContext s = true ↔ s > SIMILARITY_THRESHOLD)
    ∧ isOutOfContext 1 = false
    ∧ chat_with_transcript (fun _ => .ok r) (fun _ => [(c, s)]) q sid none db
        = (.ok (if s > 1 then OOC_WARNING ++ r ++ "\n" else r),
           db ++ [⟨sid, "human", q⟩,
                  ⟨sid, "assistant", if s > 1 then OOC_WARNING ++ r ++ "\n" else r⟩]) := by
  refine ⟨by simp [isOutOfContext], by simp [isOutOfContext, SIMILARITY_THRESHOLD], ?_⟩
  by_cases hs : s > 1
  · simp [chat_with_transcript, isOutOfContext, SIMILARITY_THRESHOLD, hs]
  · simp [chat_with_transcript, isOutOfContext, SIMILARITY_THRESHOLD, hs]

/-- C2: starting from a session with no stored messages, two consecutive
successful chat calls (any branches, any models, any retrievals) leave the
conversation memory with exactly 4 messages for that session — the two
user turns and the two assistant turns, in call order. -/
theorem c2_two_chats_four_messages
    (llm1 llm2 : List ChatMsg → Except PyError String)
    (ret1 ret2 : String → List (String × ℚ))
    (q1 q2 sid : String) (nc1 nc2 : Option String)
    (db db1 db2 : List Msg) (r1 r2 : String)
    (h0 : historyFor db sid = [])
    (h1 : chat_with_transcript llm1 ret1 q1 sid nc1 db = (.ok r1, db1))
    (h2 : chat_with_transcript llm2 ret2 q2 sid nc2 db1 = (.ok r2, db2)) :
    historyFor db2 sid
      = [⟨sid, "human", q1⟩, ⟨sid, "assistant", r1⟩,
         ⟨sid, "human", q2⟩, ⟨sid, "assistant", r2⟩]
    ∧ (historyFor db2 sid).length = 4
    ∧ ((historyFor db2 sid).filter (fun m => m.role == "human")).length = 2
    ∧ ((historyFor db2 sid).filter (fun m => m.role == "assistant")).length = 2 := by
  have e1 := chat_ok_appends llm1 ret1 q1 sid nc1 db r1 db1 h1
  have e2 := chat_ok_appends llm2 ret2 q2 sid nc2 db1 r2 db2 h2
  subst e2
  subst e1
  have hh : historyFor
      ((db ++ [⟨sid, "human", q1⟩, ⟨sid, "assistant", r1⟩])
        ++ [⟨sid, "human", q2⟩, ⟨sid, "assistant", r2⟩]) sid
      = [⟨sid, "human", q1⟩, ⟨sid, "assistant", r1⟩,
         ⟨sid, "human", q2⟩, ⟨sid, "assistant", r2⟩] := by
    rw [historyFor_append, historyFor_append, h0]
    simp [historyFor]
  rw [hh]
  refine ⟨rfl, rfl, ?_, ?_⟩ <;> simp

/-- C6: if the generation-client call fails, the chat call raises and no
message — neither the user turn nor a partial assistant turn — is appended
to the session's conversation memory. -/
theorem c6_generation_failure_keeps_memory
    (llm : List ChatMsg → Except PyError String)
    (retrieve : String → List (String × ℚ))
    (q sid : String) (nc : Option String)
    (db : List Msg) (e : PyError) (db' : List Msg)
    (h : chat_with_transcript llm retrieve q sid nc db = (.error e, db')) :
    db' = db :=
  chat_error_state llm retrieve q sid nc db e db' h

/-- C10: `generate_notes` never reads its `chunk_size` and `chunk_overlap`
parameters — two calls differing only in those two arguments (same
document, user, template, retriever k, temperature and underlying state)
return the same result. -/
theorem c10_notes_independent_of_chunk_args
    (documents : List DocRecord) (faissStore : String → Option FaissIndex)
    (search : FaissIndex → ℕ → String → List String)
    (llmComplete : ℚ → String → String)
    (document_id username prompt_template : String)
    (cs1 co1 cs2 co2 retriever_k : ℕ) (llm_temperature : ℚ) :
    generate_notes documents faissStore search llmComplete document_id
        username prompt_template cs1 co1 retriever_k llm_temperature
      = generate_notes documents faissStore search llmComplete document_id
        username prompt_template cs2 co2 retriever_k llm_temperature := rfl

/-- Witness for C2 at concrete inputs: fresh session "s", two in-context
calls answering "A" and "B". -/
theorem c2_two_chats_four_messages_witness :
    historyFor ([] : List Msg) "s" = []
    ∧ chat_with_transcript (fun _ => .ok "A") (fun _ => [("c", 0)]) "x" "s" none []
        = (.ok "A", [⟨"s", "human", "x"⟩, ⟨"s", "assistant", "A"⟩])
    ∧ chat_with_transcript (fun _ => .ok "B") (fun _ => [("c", 0)]) "y" "s" none
          [⟨"s", "human", "x"⟩, ⟨"s", "assistant", "A"⟩]
        = (.ok "B",
           [⟨"s", "human", "x"⟩, ⟨"s", "assistant", "A"⟩,
            ⟨"s", "human", "y"⟩, ⟨"s", "assistant", "B"⟩])
    ∧ (historyFor [⟨"s", "human", "x"⟩, ⟨"s", "assistant", "A"⟩,
          ⟨"s", "human", "y"⟩, ⟨"s", "assistant", "B"⟩] "s"
        = [⟨"s", "human", "x"⟩, ⟨"s", "assistant", "A"⟩,
           ⟨"s", "human", "y"⟩, ⟨"s", "assistant", "B"⟩]
      ∧ (historyFor [⟨"s", "human", "x"⟩, ⟨"s", "assistant", "A"⟩,
            ⟨"s", "human", "y"⟩, ⟨"s", "assistant", "B"⟩] "s").length = 4
      ∧ ((historyFor [⟨"s", "human", "x"⟩, ⟨"s", "assistant", "A"⟩,
            ⟨"s", "human", "y"⟩, ⟨"s", "assistant", "B"⟩] "s").filter
              (fun m => m.role == "human")).length = 2
      ∧ ((historyFor [⟨"s", "human", "x"⟩, ⟨"s", "assistant", "A"⟩,
            ⟨"s", "human", "y"⟩, ⟨"s", "assistant", "B"⟩] "s").filter
              (fun m => m.role == "assistant")).length = 2) :=
  ⟨rfl, rfl, rfl,
   c2_two_chats_four_messages (fun _ => .ok "A") (fun _ => .ok "B")
     (fun _ => [("c", 0)]) (fun _ => [("c", 0)]) "x" "y" "s" none none
     [] [⟨"s", "human", "x"⟩, ⟨"s", "assistant", "A"⟩]
     [⟨"s", "human", "x"⟩, ⟨"s", "assistant", "A"⟩,
      ⟨"s", "human", "y"⟩, ⟨"s", "assistant", "B"⟩]
     "A" "B" rfl rfl rfl⟩

/-- Witness for C6 at concrete inputs: the model call fails, the messages
collection stays empty. -/
theorem c6_generation_failure_keeps_memory_witness :
    chat_with_transcript (fun _ => .error (.runtimeError "model unavailable"))
        (fun _ => [("c", 0)]) "x" "s" none []
      = (.error (.runtimeError "model unavailable"), ([] : List Msg))
    ∧ ([] : List Msg) = [] :=
  ⟨rfl,
   c6_generation_failure_keeps_memory
     (fun _ => .error (.runtimeError "model unavailable"))
     (fun _ => [("c", 0)]) "x" "s" none [] (.runtimeError "model unavailable")
     [] rfl⟩

/-- C3 counterexample: a session whose history holds one assistant-authored
message ("assistant", "hello"). The in-context prompt replays it as a
system message, not in its original assistant role, so the prompt is not
the claimed sequence with the history in its original roles. -/
theorem c3_history_role_counterexample :
    toChatHistory (historyFor [⟨"s", "assistant", "hello"⟩] "s")
      = [⟨"system", "hello"⟩]
    ∧ ragPrompt "ctx" (toChatHistory (historyFor [⟨"s", "assistant", "hello"⟩] "s")) "q"
        = [⟨"system", "Answer strictly using the provided context."⟩,
           ⟨"system", "Context:\nctx"⟩,
           ⟨"system", "hello"⟩,
           ⟨"human", "q"⟩]
    ∧ ragPrompt "ctx" (toChatHistory (historyFor [⟨"s", "assistant", "hello"⟩] "s")) "q"
        ≠ [⟨"system", "Answer strictly using the provided context."⟩,
           ⟨"system", "Context:\nctx"⟩,
           ⟨"assistant", "hello"⟩,
           ⟨"human", "q"⟩] := by
  refine ⟨rfl, rfl, ?_⟩
  decide

/-- C3 amended: for every in-context chat call, the prompt sent to the
generation client is one grounded-answering instruction message, one
context message, the session history replayed in its original order with
contents preserved — user messages with role "human", every other stored
message (i.e. assistant turns) with role "system" instead of its original
role — and then the new user message. -/
theorem c3_prompt_shape (db : List Msg) (sid context q c : String)
    (llm : List ChatMsg → Except PyError String) :
    ragPrompt context (toChatHistory (historyFor db sid)) q
      = [⟨"system", "Answer strictly using the provided context."⟩,
         ⟨"system", "Context:\n" ++ context⟩]
        ++ (historyFor db sid).map (fun m =>
            if m.role == "human" then (⟨"human", m.content⟩ : ChatMsg)
            else ⟨"system", m.content⟩)
        ++ [⟨"human", q⟩]
    ∧ chat_with_transcript llm (fun _ => [(c, 0)]) q sid none db
        = (match llm (ragPrompt c (toChatHistory (historyFor db sid)) q) with
           | .error e => (.error e, db)
           | .ok response =>
             (.ok response,
              db ++ [⟨sid, "human", q⟩, ⟨sid, "assistant", response⟩])) := by
  constructor
  · simp [ragPrompt, toChatHistory]
  · rfl

/-- C4: for every index and query, top-k retrieval with k greater than the
index's chunk count returns exactly the chunk count of results (never
more), and retrieval against an empty index returns an empty result; both
are ordinary values, not errors. -/
theorem c4_topk_capped (score : String → String → ℚ)
    (index : List String) (query : String) (k : ℕ)
    (hk : index.length < k) :
    (topK score index query k).length = index.length
    ∧ (topK score index query k).length ≤ index.length
    ∧ topK score [] query k = [] := by
  have hlen : (topK score index query k).length = min k index.length := by
    simp [topK, List.length_mergeSort]
  refine ⟨?_, ?_, ?_⟩
  · rw [hlen]; omega
  · rw [hlen]; omega
  · simp [topK]

/-- Witness for C4 at a concrete one-chunk index and k = 3. -/
theorem c4_topk_capped_witness :
    (["only chunk"] : List String).length < 3
    ∧ ((topK (fun _ _ => 0) ["only chunk"] "q" 3).length
          = (["only chunk"] : List String).length
      ∧ (topK (fun _ _ => 0) ["only chunk"] "q" 3).length
          ≤ (["only chunk"] : List String).length
      ∧ topK (fun _ _ => 0) [] "q" 3 = []) :=
  ⟨by decide, c4_topk_capped (fun _ _ => 0) ["only chunk"] "q" 3 (by decide)⟩

/-- C5: selecting the custom-template variant (`type_17`) with empty (or
missing) custom text fails with the validation error and leaves the stored
selections unchanged; selecting it with non-empty custom text succeeds and
records exactly that text for the session. -/
theorem c5_custom_template_validation
    (st : List (String × FormatSelection)) (sid t : String) (ht : t ≠ "") :
    select_formats st sid "type_17" none = (.customRequired, st)
    ∧ select_formats st sid "type_17" (some "") = (.customRequired, st)
    ∧ (select_formats st sid "type_17" (some t)).1
        = .selected "type_17" (some t)
    ∧ dictGet (select_formats st sid "type_17" (some t)).2 sid
        = some ⟨"type_17", some t⟩ := by
  have ht' : (t == "") = false := beq_eq_false_iff_ne.mpr ht
  have hcond : ¬((("type_17" : String) == "type_17"
      && !(pyTruthy (some t))) = true) := by
    simp [pyTruthy, ht']
  refine ⟨rfl, rfl, ?_, ?_⟩
  · unfold select_formats
    rw [if_pos (show notesFormatMembers.contains "type_17" = true from rfl),
      if_neg hcond]
    rfl
  · unfold select_formats
    rw [if_pos (show notesFormatMembers.contains "type_17" = true from rfl),
      if_neg hcond]
    simp [dictGet, dictInsert]

/-- Witness for C5 with custom text "My template". -/
theorem c5_custom_template_validation_witness :
    ("My template" : String) ≠ ""
    ∧ (select_formats [] "s" "type_17" none = (.customRequired, [])
      ∧ select_formats [] "s" "type_17" (some "") = (.customRequired, [])
      ∧ (select_formats [] "s" "type_17" (some "My template")).1
          = .selected "type_17" (some "My template")
      ∧ dictGet (select_formats [] "s" "type_17" (some "My template")).2 "s"
          = some ⟨"type_17", some "My template"⟩) :=
  ⟨by decide, c5_custom_template_validation [] "s" "My template" (by decide)⟩

/-- C7 counterexample: with an empty documents collection (so no index
exists for ("alice", "doc-1")), load_retriever fails — but by subscripting
the missing record (an untyped TypeError), not with the spec's typed
IndexNotFound. -/
theorem c7_load_missing_counterexample :
    load_retriever [] (fun _ => none) "alice" "doc-1" 5
      = .error (.typeError "NoneType object is not subscriptable")
    ∧ load_retriever [] (fun _ => none) "alice" "doc-1" 5
      ≠ .error PyError.indexNotFound := by
  refine ⟨rfl, ?_⟩
  intro h
  exact PyError.noConfusion (Except.error.inj h)

/-- C7 amended: loading the index for an (owner, document_id) pair with no
stored document record does fail, but with an untyped error (a TypeError
from subscripting the missing record), never with a typed IndexNotFound —
no code path produces IndexNotFound. -/
theorem c7_load_missing_fails_untyped
    (documents : List DocRecord) (faissStore : String → Option FaissIndex)
    (username document_id : String) (k : ℕ)
    (h : documents.find?
        (fun d => d.id == document_id && d.username == username) = none) :
    load_retriever documents faissStore username document_id k
      = .error (.typeError "NoneType object is not subscriptable")
    ∧ load_retriever documents faissStore username document_id k
      ≠ .error PyError.indexNotFound := by
  unfold load_retriever
  rw [h]
  exact ⟨rfl, fun hbad => PyError.noConfusion (Except.error.inj hbad)⟩

/-- Witness for the amended C7 on the empty documents collection. -/
theorem c7_load_missing_fails_untyped_witness :
    List.find? (fun d => d.id == "doc-1" && d.username == "alice")
        ([] : List DocRecord) = none
    ∧ (load_retriever [] (fun _ => none) "alice" "doc-1" 5
        = .error (.typeError "NoneType object is not subscriptable")
      ∧ load_retriever [] (fun _ => none) "alice" "doc-1" 5
        ≠ .error PyError.indexNotFound) :=
  ⟨rfl, c7_load_missing_fails_untyped [] (fun _ => none) "alice" "doc-1" 5 rfl⟩

/-- C8: the notes endpoint fails with the format-not-selected error if no
format selection exists for the session, and (when a selection exists)
with the invalid-session error if the session id is unknown. -/
theorem c8_generate_notes_endpoint_errors
    (selected : List (String × FormatSelection))
    (sessions : List SessionRecord)
    (runGen : FormatSelection → SessionRecord → String)
    (sid : String) (data : FormatSelection) :
    (dictGet selected sid = none →
      generate_notes_endpoint selected sessions runGen sid
        = .error "Please select a notes format first using /formats")
    ∧ (dictGet selected sid = some data →
       sessions.find? (fun s => s.id == sid) = none →
       generate_notes_endpoint selected sessions runGen sid
         = .error "Invalid session") := by
  constructor
  · intro h
    unfold generate_notes_endpoint
    rw [h]
  · intro h hs
    unfold generate_notes_endpoint
    rw [h, hs]

/-- Witness for C8: no selection for "s0"; a selection but no session
record for "s1". -/
theorem c8_generate_notes_endpoint_errors_witness :
    (dictGet ([] : List (String × FormatSelection)) "s0" = none
      ∧ generate_notes_endpoint [] [] (fun _ _ => "") "s0"
          = .error "Please select a notes format first using /formats")
    ∧ (dictGet [("s1", (⟨"type_1", none⟩ : FormatSelection))] "s1"
          = some ⟨"type_1", none⟩
      ∧ List.find? (fun s => s.id == "s1") ([] : List SessionRecord) = none
      ∧ generate_notes_endpoint [("s1", ⟨"type_1", none⟩)] []
          (fun _ _ => "") "s1" = .error "Invalid session") :=
  ⟨⟨rfl,
    (c8_generate_notes_endpoint_errors [] [] (fun _ _ => "") "s0"
      ⟨"type_1", none⟩).1 rfl⟩,
   ⟨rfl, rfl,
    (c8_generate_notes_endpoint_errors [("s1", ⟨"type_1", none⟩)] []
      (fun _ _ => "") "s1" ⟨"type_1", none⟩).2 rfl rfl⟩⟩

/-- C9: selecting any fixed-catalog (non-custom) format discards any
caller-supplied custom text — the stored selection for the session always
has custom text None. -/
theorem c9_fixed_format_discards_custom
    (st : List (String × FormatSelection)) (sid nf : String)
    (custom : Option String)
    (hmem : notesFormatMembers.contains nf = true)
    (hne : nf ≠ "type_17") :
    (select_formats st sid nf custom).1 = .selected nf none
    ∧ dictGet (select_formats st sid nf custom).2 sid = some ⟨nf, none⟩ := by
  have hne' : (nf == "type_17") = false := beq_eq_false_iff_ne.mpr hne
  have hcond : ¬((nf == "type_17" && !(pyTruthy custom)) = true) := by
    simp [hne']
  unfold select_formats
  rw [if_pos hmem, if_neg hcond]
  constructor
  · simp [hne']
  · simp [hne', dictGet, dictInsert]

/-- Witness for C9: format "type_1" with custom text "ignored". -/
theorem c9_fixed_format_discards_custom_witness :
    notesFormatMembers.contains "type_1" = true
    ∧ ("type_1" : String) ≠ "type_17"
    ∧ ((select_formats [] "s" "type_1" (some "ignored")).1
          = .selected "type_1" none
      ∧ dictGet (select_formats [] "s" "type_1" (some "ignored")).2 "s"
          = some ⟨"type_1", none⟩) :=
  ⟨rfl, by decide,
   c9_fixed_format_discards_custom [] "s" "type_1" (some "ignored") rfl
     (by decide)⟩
